import Mathlib

/-!
Verification of the analysis engine of the Snowflake credit-usage analyzer.

Shallow embedding of the detector logic of `streamlit_app.py`.  Query texts
are modelled as `List Char`; the Python regular expressions used by the
detectors are embedded as token-list patterns over character classes, with a
verified backtracking matcher.  Numeric telemetry fields that the code guards
with `pd.notna(...) else 0` are modelled as `Option` with a `getD` default;
durations in seconds are rationals (the load layer divides milliseconds
by 1000).
-/

namespace SnowflakeAnalyzer

/-- Issue severity levels used by the app (CRITICAL, HIGH, MEDIUM, LOW). -/
inductive Severity where
  | CRITICAL
  | HIGH
  | MEDIUM
  | LOW
deriving DecidableEq, Repr

/-- One execution record of the snapshot (one row of the query-history frame).
Only the fields the detectors read are modelled.  `Option` fields are the
ones the code reads through a `pd.notna` guard (or that may be absent);
`execution_time_sec` is read unguarded by the code, so it is a plain rational
(seconds). -/
structure Record where
  query_id : String
  query_text : List Char
  user_name : String
  warehouse_name : String
  warehouse_size : String
  fingerprint : Option String        -- QUERY_PARAMETERIZED_HASH (nullable)
  execution_time_sec : ℚ             -- EXECUTION_TIME_SEC = EXECUTION_TIME / 1000
  total_elapsed_time : Option ℚ      -- ms
  compilation_time : Option ℚ        -- ms
  queued_provisioning_time : ℚ       -- ms (summed by groupby; NaN sums as 0)
  queued_overload_time : ℚ           -- ms
  bytes_scanned : Option ℚ
  bytes_spilled_local : Option ℚ     -- BYTES_SPILLED_TO_LOCAL_STORAGE
  bytes_spilled_remote : Option ℚ    -- BYTES_SPILLED_TO_REMOTE_STORAGE
  partitions_scanned : Option ℚ
  partitions_total : Option ℚ
  pct_scanned_from_cache : Option ℚ  -- PERCENTAGE_SCANNED_FROM_CACHE
  rows_produced : Option ℚ
  credits_cloud_services : Option ℚ  -- CREDITS_USED_CLOUD_SERVICES
  query_retry_time : Option ℚ
  query_retry_cause : Option String
deriving DecidableEq

/-- Issue row emitted by a detector.  The Python code builds dicts with
detector-specific columns; we keep the fields the claims talk about. -/
structure Issue where
  query_id : String
  warehouse : String
  warehouse_size : String
  severity : Severity
  issue : String
deriving DecidableEq

/-- Embeds the Python `str.upper()` normalization applied to the query text. -/
def upper (s : List Char) : List Char := s.map Char.toUpper

/-- Python regex `\s` (ASCII whitespace as relevant for SQL text). -/
def isWS (c : Char) : Bool :=
  c = ' ' || c = '\t' || c = '\n' || c = '\r' || c = '\x0b' || c = '\x0c'

/-- Python regex `\w` (ASCII word character). -/
def isWord (c : Char) : Bool :=
  ('A' ≤ c && c ≤ 'Z') || ('a' ≤ c && c ≤ 'z') || ('0' ≤ c && c ≤ '9') || c = '_'

/-- The character class `[A-Z_]` of the `SELECT\s+[A-Z_]+\.\*` pattern. -/
def isUpperId (c : Char) : Bool := ('A' ≤ c && c ≤ 'Z') || c = '_'

/-! ## A small verified pattern matcher

The detector regexes that matter are sequences of literals and character
classes (`lit`, one-or-more `plus`, zero-or-more `star`).  `ToksMatch` is
the declarative semantics (the string splits into pieces matched by each
token); `matchToks` is a backtracking matcher deciding whether some prefix
of the input matches; `findToks` scans all start positions, mirroring
`re.search`. -/

inductive Tok where
  | lit (cs : List Char)
  | one (p : Char → Bool)
  | opt (p : Char → Bool)
  | plus (p : Char → Bool)
  | star (p : Char → Bool)

/-- Declarative semantics: `ToksMatch ts s` holds when `s` decomposes into
consecutive pieces, one per token. -/
inductive ToksMatch : List Tok → List Char → Prop where
  | nil : ToksMatch [] []
  | lit {cs ts s} : ToksMatch ts s → ToksMatch (Tok.lit cs :: ts) (cs ++ s)
  | one {p ts a s} : p a = true → ToksMatch ts s → ToksMatch (Tok.one p :: ts) (a :: s)
  | opt0 {p ts s} : ToksMatch ts s → ToksMatch (Tok.opt p :: ts) s
  | opt1 {p ts a s} : p a = true → ToksMatch ts s → ToksMatch (Tok.opt p :: ts) (a :: s)
  | plus {p ts w s} : w ≠ [] → (∀ c ∈ w, p c = true) → ToksMatch ts s →
      ToksMatch (Tok.plus p :: ts) (w ++ s)
  | star {p ts w s} : (∀ c ∈ w, p c = true) → ToksMatch ts s →
      ToksMatch (Tok.star p :: ts) (w ++ s)

/-- Scan zero or more characters of class `p`, trying the continuation `k`
at every stopping point (backtracking for `\x2a`-style repetition). -/
def starScan (k : List Char → Bool) (p : Char → Bool) : List Char → Bool
  | [] => k []
  | a :: rest => k (a :: rest) || (p a && starScan k p rest)

/-- Literal prefix test (`l₁` begins `l₂`). -/
def litPre : List Char → List Char → Bool
  | [], _ => true
  | _ :: _, [] => false
  | c :: cs, a :: s => c = a && litPre cs s

/-- Does some prefix of `s` match the token sequence `ts`? (backtracking) -/
def matchToks : List Tok → List Char → Bool
  | [], _ => true
  | Tok.lit cs :: ts, s => litPre cs s && matchToks ts (s.drop cs.length)
  | Tok.one p :: ts, s =>
    match s with
    | [] => false
    | a :: rest => p a && matchToks ts rest
  | Tok.opt p :: ts, s =>
    matchToks ts s ||
      (match s with
       | [] => false
       | a :: rest => p a && matchToks ts rest)
  | Tok.plus p :: ts, s =>
    match s with
    | [] => false
    | a :: rest => p a && starScan (matchToks ts) p rest
  | Tok.star p :: ts, s => starScan (matchToks ts) p s

/-- Embeds `re.search`: some substring starting anywhere matches. -/
def findToks (ts : List Tok) : List Char → Bool
  | [] => matchToks ts []
  | s@(_ :: rest) => matchToks ts s || findToks ts rest

/-- Embeds the Python `pat in s` substring containment test. -/
def containsL (pat s : List Char) : Bool := findToks [Tok.lit pat] s

/-! ## The concrete patterns of the detectors -/

/-- DOTALL `.` of `re.DOTALL` patterns: any character. -/
def anyC : Char → Bool := fun _ => true

/-- Quote class of the DATE_TRUNC pattern. -/
def isQuote (c : Char) : Bool := c = Char.ofNat 39 || c = '"'

/-- Regex `SELECT\s+\*\s+FROM` (analyze_select_star). -/
def selectStarFromToks : List Tok :=
  [Tok.lit "SELECT".data, Tok.plus isWS, Tok.lit "*".data, Tok.plus isWS, Tok.lit "FROM".data]

/-- Regex `SELECT\s+[A-Z_]+\.\*` (analyze_select_star). -/
def selectDotStarToks : List Tok :=
  [Tok.lit "SELECT".data, Tok.plus isWS, Tok.plus isUpperId, Tok.lit ".*".data]

/-- Regex `FROM\s+\w+\s*,\s*\w+` (analyze_cartesian_joins). -/
def fromCommaToks : List Tok :=
  [Tok.lit "FROM".data, Tok.plus isWS, Tok.plus isWord, Tok.star isWS,
   Tok.lit ",".data, Tok.star isWS, Tok.plus isWord]

/-- Regex `JOIN.*ON.*\sOR\s` with `re.DOTALL` (analyze_cartesian_joins). -/
def joinOnOrToks : List Tok :=
  [Tok.lit "JOIN".data, Tok.star anyC, Tok.lit "ON".data, Tok.star anyC,
   Tok.one isWS, Tok.lit "OR".data, Tok.one isWS]

/-- Word-boundary test for a scan position: the previous character (if any)
is not a word character.  All patterns needing a leading boundary start with
a word character, so this captures `\b` there. -/
def boundaryOk : Option Char → Bool
  | none => true
  | some d => !isWord d

/-- Scan all positions, requiring a word boundary before the match. -/
def scanB (ts : List Tok) : Option Char → List Char → Bool
  | prev, [] => boundaryOk prev && matchToks ts []
  | prev, c :: rest => (boundaryOk prev && matchToks ts (c :: rest)) || scanB ts (some c) rest

/-- Search with a leading `\b` (used by the function-on-filter patterns). -/
def findToksWB (ts : List Tok) (s : List Char) : Bool := scanB ts none s

/-- Pattern `\b<NAME>\s*\(\s*\w+` of the function-on-filter detector. -/
def funcToks (name : String) : List Tok :=
  [Tok.lit name.data, Tok.star isWS, Tok.lit "(".data, Tok.star isWS, Tok.plus isWord]

/-- Pattern for DATE_TRUNC with its optional quoted first argument. -/
def dateTruncToks : List Tok :=
  [Tok.lit "DATE_TRUNC".data, Tok.star isWS, Tok.lit "(".data, Tok.star isWS,
   Tok.opt isQuote, Tok.plus isWord, Tok.opt isQuote, Tok.star isWS,
   Tok.lit ",".data, Tok.star isWS, Tok.plus isWord]

/-- The fixed function-name patterns of analyze_function_on_filter. -/
def funcPatternToks : List (List Tok) :=
  [funcToks "YEAR", funcToks "MONTH", funcToks "DATE", funcToks "TO_DATE",
   dateTruncToks, funcToks "UPPER", funcToks "LOWER", funcToks "TRIM", funcToks "SUBSTR"]

/-- Lookahead body of `\bUNION\b(?!\s+ALL)`: one-or-more whitespace then ALL. -/
def wsAllPre (rest : List Char) : Bool :=
  !(rest.takeWhile isWS).isEmpty && litPre "ALL".data (rest.dropWhile isWS)

/-- Trailing word boundary after UNION plus the negative lookahead. -/
def unionAfterOk (rest : List Char) : Bool :=
  (match rest with
   | [] => true
   | d :: _ => !isWord d) && !wsAllPre rest

/-- Scanner for `\bUNION\b(?!\s+ALL)` (analyze_union_vs_union_all). -/
def unionScan : Option Char → List Char → Bool
  | _, [] => false
  | prev, c :: rest =>
    (boundaryOk prev && litPre "UNION".data (c :: rest) && unionAfterOk ((c :: rest).drop 5))
      || unionScan (some c) rest

def hasUnionNotAll (s : List Char) : Bool := unionScan none s

/-- Part of `s` after the first occurrence of `pat` (`s.split(pat, 1)[-1]`
when `pat` occurs in `s`; the callers guard on containment). -/
def afterFirst (pat : List Char) : List Char → List Char
  | [] => []
  | s@(_ :: rest) => if litPre pat s then s.drop pat.length else afterFirst pat rest

/-- Part of `s` before the first occurrence of `pat` (`s.split(pat)[0]`;
equals `s` itself when `pat` does not occur, matching the conditional
truncation in the code). -/
def beforeFirst (pat : List Char) : List Char → List Char
  | [] => []
  | s@(c :: rest) => if litPre pat s then [] else c :: beforeFirst pat rest

/-! ## Per-record detectors (the pure row predicates of the app) -/

/-- Per-record body of `analyze_select_star` (lines 99-137): fires when the
uppercased text matches one of the two wildcard patterns; severity HIGH when
bytes scanned (NaN as 0) exceed 1073741824, else MEDIUM. -/
def selectStarIssue (r : Record) : Option Issue :=
  let qt := upper r.query_text
  if findToks selectStarFromToks qt || findToks selectDotStarToks qt then
    let bytes_scanned := r.bytes_scanned.getD 0
    some { query_id := r.query_id, warehouse := r.warehouse_name,
           warehouse_size := r.warehouse_size,
           severity := if bytes_scanned > 1073741824 then Severity.HIGH else Severity.MEDIUM,
           issue := "SELECT * Usage" }
  else none

def analyze_select_star (df : List Record) : List Issue := df.filterMap selectStarIssue

/-- Flag `has_join` of analyze_cartesian_joins (line 146). -/
def cart_has_join (qt : List Char) : Bool := containsL "JOIN".data qt

/-- Flag `has_on_or_using` (line 147): the substrings are checked verbatim,
ON with surrounding spaces and USING bare. -/
def cart_has_on_or_using (qt : List Char) : Bool :=
  containsL " ON ".data qt || containsL "USING".data qt

/-- Flag `has_comma_join` (line 148). -/
def cart_has_comma_join (qt : List Char) : Bool :=
  findToks fromCommaToks qt && !containsL "WHERE".data qt

/-- Flag `has_cross_join` (line 149). -/
def cart_has_cross_join (qt : List Char) : Bool := containsL "CROSS JOIN".data qt

/-- Flag `has_or_in_join` (line 150). -/
def cart_has_or_in_join (qt : List Char) : Bool := findToks joinOnOrToks qt

/-- Denominator of the rows-per-bytes quotient of `high_row_explosion`
(line 160): `max(bytes_scanned, 1)`. -/
def explosionDenominator (r : Record) : ℚ := max (r.bytes_scanned.getD 0) 1

/-- Flag `high_row_explosion` (lines 156-161). -/
def cart_high_row_explosion (r : Record) : Bool :=
  let rows_produced := r.rows_produced.getD 0
  let bytes_scanned := r.bytes_scanned.getD 0
  decide (rows_produced > 10000000 ∧ bytes_scanned > 0 ∧ r.execution_time_sec > 60 ∧
    rows_produced / explosionDenominator r > 100)

/-- Flag `missing_join_condition` (line 163). -/
def cart_missing_join_condition (qt : List Char) : Bool :=
  (cart_has_join qt && !cart_has_on_or_using qt) || cart_has_comma_join qt

/-- Per-record body of `analyze_cartesian_joins` (lines 139-221). -/
def cartesianIssue (r : Record) : Option Issue :=
  let qt := upper r.query_text
  if cart_missing_join_condition qt || cart_has_cross_join qt ||
      cart_high_row_explosion r || cart_has_or_in_join qt then
    some { query_id := r.query_id, warehouse := r.warehouse_name,
           warehouse_size := r.warehouse_size,
           severity :=
             if cart_missing_join_condition qt || cart_has_cross_join qt
             then Severity.CRITICAL else Severity.HIGH,
           issue := "Cartesian Join / Join Issue" }
  else none

def analyze_cartesian_joins (df : List Record) : List Issue := df.filterMap cartesianIssue

/-- Per-record body of `analyze_union_vs_union_all` (lines 223-256). -/
def unionIssue (r : Record) : Option Issue :=
  if hasUnionNotAll (upper r.query_text) then
    some { query_id := r.query_id, warehouse := r.warehouse_name,
           warehouse_size := r.warehouse_size,
           severity := Severity.LOW, issue := "UNION Instead of UNION ALL" }
  else none

def analyze_union_vs_union_all (df : List Record) : List Issue := df.filterMap unionIssue

/-- WHERE-clause slice used by analyze_function_on_filter (lines 280-283):
after the first WHERE, truncated at GROUP BY, ORDER BY and LIMIT. -/
def whereClauseOf (qt : List Char) : List Char :=
  beforeFirst "LIMIT".data
    (beforeFirst "ORDER BY".data
      (beforeFirst "GROUP BY".data (afterFirst "WHERE".data qt)))

/-- Per-record body of `analyze_function_on_filter` (lines 258-325). -/
def functionFilterIssue (r : Record) : Option Issue :=
  let qt := upper r.query_text
  if containsL "WHERE".data qt then
    if funcPatternToks.any (fun ts => findToksWB ts (whereClauseOf qt)) then
      some { query_id := r.query_id, warehouse := r.warehouse_name,
             warehouse_size := r.warehouse_size,
             severity :=
               if r.partitions_total.getD 0 > 100 then Severity.HIGH else Severity.MEDIUM,
             issue := "Function on Filter Column" }
    else none
  else none

def analyze_function_on_filter (df : List Record) : List Issue :=
  df.filterMap functionFilterIssue

/-- Per-record body of `analyze_spilling` (lines 327-378): fires when local
or remote spill bytes (NaN as 0) are positive; CRITICAL when remote spill is
positive, else HIGH. -/
def spillingIssue (r : Record) : Option Issue :=
  let local_spill := r.bytes_spilled_local.getD 0
  let remote_spill := r.bytes_spilled_remote.getD 0
  if local_spill > 0 ∨ remote_spill > 0 then
    some { query_id := r.query_id, warehouse := r.warehouse_name,
           warehouse_size := r.warehouse_size,
           severity := if remote_spill > 0 then Severity.CRITICAL else Severity.HIGH,
           issue := "Memory Spilling" }
  else none

def analyze_spilling (df : List Record) : List Issue := df.filterMap spillingIssue

/-- Denominator of the scan percentage (line 390): partitions total, read
with NaN as 0; it is only divided by under the guard `partitions_total > 50`. -/
def pruningDenominator (r : Record) : ℚ := r.partitions_total.getD 0

def pruningIssue (r : Record) : Option Issue :=
  let partitions_scanned := r.partitions_scanned.getD 0
  let partitions_total := pruningDenominator r
  if partitions_total > 50 then
    let scan_percentage := partitions_scanned / partitions_total * 100
    if scan_percentage > 50 then
      some { query_id := r.query_id, warehouse := r.warehouse_name,
             warehouse_size := r.warehouse_size,
             severity := if scan_percentage > 80 then Severity.HIGH else Severity.MEDIUM,
             issue := "Poor Partition Pruning" }
    else none
  else none

def analyze_poor_pruning (df : List Record) : List Issue := df.filterMap pruningIssue

/-- Denominator of the compilation percentage (line 567): NaN total elapsed
time is read as 1, then clamped by `max(total_time, 1)`. -/
def compilationDenominator (r : Record) : ℚ := max (r.total_elapsed_time.getD 1) 1

/-- Per-record body of `analyze_long_compilation` (lines 559-592): NaN
compilation time as 0. -/
def compilationIssue (r : Record) : Option Issue :=
  let compilation_time := r.compilation_time.getD 0
  let compilation_pct := compilation_time / compilationDenominator r * 100
  if compilation_pct > 25 ∧ compilation_time > 3000 then
    some { query_id := r.query_id, warehouse := r.warehouse_name,
           warehouse_size := r.warehouse_size,
           severity := Severity.MEDIUM, issue := "Excessive Compilation Time" }
  else none

def analyze_long_compilation (df : List Record) : List Issue := df.filterMap compilationIssue

/-- Per-record body of `analyze_cache_efficiency` (lines 594-629). -/
def cacheIssue (r : Record) : Option Issue :=
  let cache_percentage := r.pct_scanned_from_cache.getD 0
  if cache_percentage < 10 ∧ r.execution_time_sec > 30 ∧ r.bytes_scanned.getD 0 > 1073741824 then
    some { query_id := r.query_id, warehouse := r.warehouse_name,
           warehouse_size := r.warehouse_size,
           severity := Severity.LOW, issue := "Low Cache Utilization" }
  else none

def analyze_cache_efficiency (df : List Record) : List Issue := df.filterMap cacheIssue

/-- Per-record body of `analyze_query_retries` (lines 631-666): fires on a
non-null, truthy (non-empty) retry cause. -/
def retryIssue (r : Record) : Option Issue :=
  match r.query_retry_cause with
  | some cause =>
    if cause ≠ "" then
      some { query_id := r.query_id, warehouse := r.warehouse_name,
             warehouse_size := r.warehouse_size,
             severity := Severity.HIGH, issue := "Query Retry Required" }
    else none
  | none => none

def analyze_query_retries (df : List Record) : List Issue := df.filterMap retryIssue

/-- Per-record body of `analyze_full_table_scans` (lines 668-724). -/
def fullScanIssue (r : Record) : Option Issue :=
  let qt := upper r.query_text
  let partitions_scanned := r.partitions_scanned.getD 0
  let partitions_total := r.partitions_total.getD 0
  let bytes_scanned := r.bytes_scanned.getD 0
  let has_no_where := !containsL "WHERE".data qt
  let has_limit := containsL "LIMIT".data qt
  let is_select_query := litPre "SELECT".data (qt.dropWhile isWS)
  if (partitions_total > 200 ∧ partitions_scanned = partitions_total ∧
        has_no_where ∧ !has_limit) ∨
     (bytes_scanned > 53687091200 ∧ has_no_where ∧ !has_limit ∧
        is_select_query ∧ r.execution_time_sec > 120) then
    some { query_id := r.query_id, warehouse := r.warehouse_name,
           warehouse_size := r.warehouse_size,
           severity := Severity.MEDIUM, issue := "Full Table Scan (No Filter)" }
  else none

def analyze_full_table_scans (df : List Record) : List Issue := df.filterMap fullScanIssue

/-- Per-record body of `analyze_cloud_services` (lines 726-749).  This
detector is defined in the file but never invoked by the orchestration code. -/
def cloudIssue (r : Record) : Option Issue :=
  if r.credits_cloud_services.getD 0 > (1 / 10 : ℚ) then
    some { query_id := r.query_id, warehouse := r.warehouse_name,
           warehouse_size := r.warehouse_size,
           severity := Severity.LOW, issue := "High Cloud Services Usage" }
  else none

def analyze_cloud_services (df : List Record) : List Issue := df.filterMap cloudIssue

/-! ## Group-by detectors -/

/-- Keys of `df.groupby(['WAREHOUSE_NAME', 'WAREHOUSE_SIZE'])`. -/
def whKeys (df : List Record) : List (String × String) :=
  (df.map fun r => (r.warehouse_name, r.warehouse_size)).dedup

/-- Rows of one (warehouse, size) group. -/
def whGroup (df : List Record) (k : String × String) : List Record :=
  df.filter fun r => decide ((r.warehouse_name, r.warehouse_size) = k)

/-- Keys of `df.groupby('QUERY_PARAMETERIZED_HASH')` (null hashes dropped,
as pandas drops NaN group keys). -/
def fingerprints (df : List Record) : List String :=
  (df.filterMap fun r => r.fingerprint).dedup

/-- Rows of one fingerprint group. -/
def fpGroup (df : List Record) (h : String) : List Record :=
  df.filter fun r => decide (r.fingerprint = some h)

/-- Warehouse sizes treated as oversized candidates (line 442). -/
def oversizedSizes : List String := ["LARGE", "X-LARGE", "2X-LARGE", "3X-LARGE", "4X-LARGE"]

/-- Per-group body of `analyze_warehouse_sizing` (lines 424-499): up to three
issues per (warehouse, size) group — oversized, overload queuing, and slow
provisioning. -/
def warehouseGroupIssues (df : List Record) (k : String × String) : List Issue :=
  let g := whGroup df k
  let avg_exec := (g.map fun r => r.execution_time_sec).sum / (g.length : ℚ)
  let queued_overload := (g.map fun r => r.queued_overload_time).sum
  let queued_provision := (g.map fun r => r.queued_provisioning_time).sum
  (if avg_exec < 3 ∧ k.2 ∈ oversizedSizes then
     [{ query_id := "", warehouse := k.1, warehouse_size := k.2,
        severity := Severity.MEDIUM, issue := "Oversized Warehouse" }]
   else []) ++
  (if queued_overload > 60000 then
     [{ query_id := "", warehouse := k.1, warehouse_size := k.2,
        severity := Severity.HIGH, issue := "Warehouse Queuing (Overload)" }]
   else []) ++
  (if queued_provision > 30000 then
     [{ query_id := "", warehouse := k.1, warehouse_size := k.2,
        severity := Severity.MEDIUM, issue := "Slow Warehouse Provisioning" }]
   else [])

def analyze_warehouse_sizing (df : List Record) : List Issue :=
  (whKeys df).flatMap (warehouseGroupIssues df)

/-- Per-group body of `analyze_repeated_expensive_queries` (lines 501-557):
one issue per fingerprint group when the group has at least 5 executions and
more than 60 seconds of summed execution time; HIGH above 300 seconds. -/
def repeatedIssueForGroup (g : List Record) : Option Issue :=
  let total_time : ℚ := (g.map fun r => r.execution_time_sec).sum
  if g.length ≥ 5 ∧ total_time > 60 then
    some { query_id := ((g.head?).map fun r => r.query_id).getD "",
           warehouse := ((g.head?).map fun r => r.warehouse_name).getD "",
           warehouse_size := "",
           severity := if total_time > 300 then Severity.HIGH else Severity.MEDIUM,
           issue := "Repeated Expensive Query" }
  else none

def analyze_repeated_expensive_queries (df : List Record) : List Issue :=
  (fingerprints df).filterMap fun h => repeatedIssueForGroup (fpGroup df h)

/-! ## Orchestration metrics (lines 1108-1162) -/

/-- Embeds `all_issues_count` (lines 1111-1115): the sum of the table sizes
of nine detectors; compilation, cache-efficiency and retry tables are
computed by the app but not included, and the cloud-services detector is
never invoked. -/
def all_issues_count (df : List Record) : ℕ :=
  (analyze_select_star df).length + (analyze_cartesian_joins df).length +
  (analyze_union_vs_union_all df).length + (analyze_function_on_filter df).length +
  (analyze_spilling df).length + (analyze_poor_pruning df).length +
  (analyze_warehouse_sizing df).length + (analyze_repeated_expensive_queries df).length +
  (analyze_full_table_scans df).length

/-- Embeds `len(spilling_issues[spilling_issues['SEVERITY'] == 'CRITICAL'])`. -/
def criticalSpillCount (df : List Record) : ℕ :=
  ((analyze_spilling df).filter fun i => decide (i.severity = Severity.CRITICAL)).length

/-- Embeds the `critical` metric (line 1161).  Python precedence makes the
conditional cover the whole sum: `a + b if cond else 0` is `(a + b) if cond
else 0`, so the metric is 0 whenever the spilling table is empty, and it
adds the full join-issue count (any severity) otherwise. -/
def critical_metric (df : List Record) : ℕ :=
  if analyze_spilling df ≠ [] then
    (analyze_cartesian_joins df).length + criticalSpillCount df
  else 0

/-- The issue tables of the twelve detectors the app invokes on a snapshot,
in invocation order (lines 848-851 and 920-927). -/
def invokedIssueTables (df : List Record) : List (List Issue) :=
  [analyze_select_star df, analyze_cartesian_joins df, analyze_union_vs_union_all df,
   analyze_function_on_filter df, analyze_spilling df, analyze_poor_pruning df,
   analyze_warehouse_sizing df, analyze_long_compilation df, analyze_cache_efficiency df,
   analyze_repeated_expensive_queries df, analyze_query_retries df,
   analyze_full_table_scans df]

/-- Follows the claim wording: the total number of issues across every
detector the orchestrator runs. -/
def totalAllDetectors (df : List Record) : ℕ :=
  ((invokedIssueTables df).map List.length).sum

/-- Follows the claim wording: the number of issues across all detectors
whose severity equals CRITICAL. -/
def criticalCountAll (df : List Record) : ℕ :=
  ((invokedIssueTables df).map fun t =>
    (t.filter fun i => decide (i.severity = Severity.CRITICAL)).length).sum

/-! ## Claim-side specification predicates -/

/-- Follows the spec wording for the first wildcard pattern: the text
contains SELECT, whitespace, an asterisk, whitespace, FROM. -/
def wildcardStarFromSpec (u : List Char) : Prop :=
  ∃ a w₁ w₂ b, u = a ++ "SELECT".data ++ w₁ ++ "*".data ++ w₂ ++ "FROM".data ++ b ∧
    w₁ ≠ [] ∧ (∀ c ∈ w₁, isWS c = true) ∧ w₂ ≠ [] ∧ (∀ c ∈ w₂, isWS c = true)

/-- Follows the spec wording for the second wildcard pattern: SELECT,
whitespace, an identifier, then a dot and an asterisk. -/
def wildcardDotStarSpec (u : List Char) : Prop :=
  ∃ a w i b, u = a ++ "SELECT".data ++ w ++ i ++ ".*".data ++ b ∧
    w ≠ [] ∧ (∀ c ∈ w, isWS c = true) ∧ i ≠ [] ∧ (∀ c ∈ i, isUpperId c = true)

/-- Follows the claim wording for C3: the query text contains a
SELECT-star-FROM or SELECT-identifier-dot-star pattern, case-insensitively
(case-insensitivity is the upper normalization the code applies). -/
def wildcardSpec (t : List Char) : Prop :=
  wildcardStarFromSpec (upper t) ∨ wildcardDotStarSpec (upper t)

/-- Occurrence of `w` (a word made of word characters) as a whole token,
scanning with the previous character as boundary context. -/
def tokenScan (w : List Char) : Option Char → List Char → Bool
  | _, [] => false
  | prev, c :: rest =>
    (boundaryOk prev && litPre w (c :: rest) &&
      (match (c :: rest).drop w.length with
       | [] => true
       | d :: _ => !isWord d)) || tokenScan w (some c) rest

/-- Follows the claim wording for C4: some occurrence of JOIN has no
subsequent ON or USING token (the character preceding the suffix being
scanned is the N of JOIN, a word character). -/
def joinNoOnUsingAfter : List Char → Bool
  | [] => false
  | s@(_ :: rest) =>
    (litPre "JOIN".data s &&
      !tokenScan "ON".data (some 'N') (s.drop 4) &&
      !tokenScan "USING".data (some 'N') (s.drop 4)) || joinNoOnUsingAfter rest

/-- Follows the claim wording for C4, the firing condition as the claim
states it: the text contains JOIN without a subsequent ON or USING token,
or a comma-separated FROM list with no WHERE clause. -/
def claimMissingJoin (t : List Char) : Bool :=
  let u := upper t
  joinNoOnUsingAfter u || (findToks fromCommaToks u && !containsL "WHERE".data u)

/-- The amended C4 firing condition in decomposition form, matching the
code: the uppercased text contains JOIN and contains neither a spaced ON
nor the USING substring anywhere (position-independent, plain substring
containment), or matches the comma-FROM pattern and has no WHERE substring. -/
def missingJoinAmendedSpec (t : List Char) : Prop :=
  ((∃ a b, upper t = a ++ "JOIN".data ++ b) ∧
     ¬ (∃ a b, upper t = a ++ " ON ".data ++ b) ∧
     ¬ (∃ a b, upper t = a ++ "USING".data ++ b)) ∨
  ((∃ a m b, upper t = a ++ m ++ b ∧ ToksMatch fromCommaToks m) ∧
     ¬ (∃ a b, upper t = a ++ "WHERE".data ++ b))

/-- Count of HIGH-severity join issues, used by the amended C1 statement. -/
def highCartCount (df : List Record) : ℕ :=
  ((analyze_cartesian_joins df).filter fun i => decide (i.severity = Severity.HIGH)).length

/-! ## The anomaly detector, modelled from the spec

The spec describes an anomaly detector (redundant executions, off-hours,
statistical runtime spikes) that belongs to this repository but whose code
is not under src; the runtime-spike check is modelled here from the spec
wording. -/

/-- Modelled from the spec: execution times of one fingerprint group. -/
def execTimes (df : List Record) (h : String) : List ℚ :=
  (fpGroup df h).map fun r => r.execution_time_sec

/-- Modelled from the spec: the median execution time of a group (middle
element of the sorted list, or the average of the two middle elements). -/
def median (xs : List ℚ) : ℚ :=
  let s := xs.mergeSort fun a b => decide (a ≤ b)
  let n := s.length
  if n % 2 = 1 then s.getD (n / 2) 0
  else (s.getD (n / 2 - 1) 0 + s.getD (n / 2) 0) / 2

/-- Modelled from the spec: arithmetic mean of the group. -/
def meanQ (xs : List ℚ) : ℚ := xs.sum / (xs.length : ℚ)

/-- Modelled from the spec: sample variance of the group (ddof 1, the
pandas default for a standard deviation); the standard deviation of the
spec is its square root. -/
def varianceQ (xs : List ℚ) : ℚ :=
  ((xs.map fun x => (x - meanQ xs) ^ 2).sum) / ((xs.length : ℚ) - 1)

/-- Modelled from the spec: the runtime-spike flag (snapshot of at least
10 records; fingerprint group of at least 3; skip when the standard
deviation is zero; flag when the z-score exceeds 3 and the execution time
exceeds 3 times the group median).  The z-score condition
`(x - median) / stddev > 3` with `stddev = sqrt variance` is expressed
inside ℚ by squaring: it is equivalent to `x - median > 0` together with
`(x - median)^2 > 9 * variance`, which keeps the definition executable. -/
def runtimeSpikeFlagged (df : List Record) (r : Record) : Bool :=
  decide (df.length ≥ 10) && decide (r ∈ df) &&
  (match r.fingerprint with
   | none => false
   | some h =>
     let g := execTimes df h
     decide (g.length ≥ 3) && decide (varianceQ g ≠ 0) &&
     decide (r.execution_time_sec - median g > 0) &&
     decide ((r.execution_time_sec - median g) ^ 2 > 9 * varianceQ g) &&
     decide (r.execution_time_sec > 3 * median g))

/-! ## Concrete snapshots used by the witnesses and counterexamples -/

/-- A neutral record that fires no detector. -/
def baseRec : Record :=
  { query_id := "Q", query_text := "SELECT 1".data, user_name := "U",
    warehouse_name := "W", warehouse_size := "X-SMALL", fingerprint := none,
    execution_time_sec := 2, total_elapsed_time := some 2000,
    compilation_time := some 10, queued_provisioning_time := 0,
    queued_overload_time := 0, bytes_scanned := some 0,
    bytes_spilled_local := some 0, bytes_spilled_remote := some 0,
    partitions_scanned := some 0, partitions_total := some 0,
    pct_scanned_from_cache := some 100, rows_produced := some 0,
    credits_cloud_services := some 0, query_retry_time := none,
    query_retry_cause := none }

/-- Scenario D record: 5 GiB of remote spill, no local spill. -/
def rSpillRemote : Record := { baseRec with bytes_spilled_remote := some 5368709120 }

/-- The issue the wildcard detector emits for `rScenarioA`. -/
def iStarA : Issue :=
  { query_id := "Q", warehouse := "W", warehouse_size := "X-SMALL",
    severity := Severity.HIGH, issue := "SELECT * Usage" }

/-- The issue the spilling detector emits for `rSpillRemote`. -/
def iSpillD : Issue :=
  { query_id := "Q", warehouse := "W", warehouse_size := "X-SMALL",
    severity := Severity.CRITICAL, issue := "Memory Spilling" }

/-- A record with local-only spill. -/
def rSpillLocal : Record := { baseRec with bytes_spilled_local := some 5 }

/-- A record whose only join problem is an OR inside the ON clause, which
the code grades HIGH (not CRITICAL). -/
def rOrJoin : Record :=
  { baseRec with
    query_text := "SELECT C FROM T1 JOIN T2 ON T1.A = T2.A OR T1.B = T2.B".data }

/-- A record whose text has JOIN with no subsequent ON or USING token, but
where USING occurs as a fragment of another word. -/
def rDiffusing : Record :=
  { baseRec with query_text := "SELECT A FROM X JOIN Y DIFFUSING Z".data }

/-- A record with a JOIN and no join predicate at all. -/
def rJoinNoOn : Record := { baseRec with query_text := "SELECT A FROM X JOIN Y".data }

/-- Scenario B record: wildcard projection and comma join, no WHERE. -/
def rScenarioB : Record := { baseRec with query_text := "SELECT a.* FROM a, b".data }

/-- Scenario A record: SELECT star with 2 GiB scanned. -/
def rScenarioA : Record :=
  { baseRec with
    query_text := "SELECT * FROM orders".data
    bytes_scanned := some 2147483648 }

/-- A record flagged only by the compilation-time detector. -/
def rCompile : Record :=
  { baseRec with
    compilation_time := some 9000
    total_elapsed_time := some 10000 }

/-- A record with poor pruning (55 of 60 partitions scanned). -/
def rPrune : Record :=
  { baseRec with
    partitions_scanned := some 55
    partitions_total := some 60 }

/-- A record whose warehouse waited 40 seconds for provisioning. -/
def rProv : Record := { baseRec with queued_provisioning_time := 40000 }

/-- Records sharing one fingerprint hash, 20 seconds each. -/
def mkFpRec (qid : String) : Record :=
  { baseRec with
    query_id := qid
    fingerprint := some "H"
    execution_time_sec := 20 }

/-- Five executions of the same fingerprint (total 100 seconds). -/
def dfC6 : List Record := ["a", "b", "c", "d", "e"].map mkFpRec

/-- A 10-record snapshot whose fingerprint group H has constant times. -/
def dfC7 : List Record := dfC6 ++ List.replicate 5 baseRec

/-- Counterexample snapshot for C1: one HIGH join issue and one HIGH
(local-only) spilling issue, so no CRITICAL issue exists anywhere. -/
def dfC1 : List Record := [rOrJoin, rSpillLocal]

/-- Counterexample snapshot for C2: only the compilation detector fires. -/
def dfC2 : List Record := [rCompile]

/-! ## Correctness of the pattern matcher -/

theorem litPre_iff (cs s : List Char) : litPre cs s = true ↔ ∃ r, s = cs ++ r := by
  induction cs generalizing s with
  | nil => simp [litPre]
  | cons c cs ih =>
    cases s with
    | nil => simp [litPre]
    | cons a s =>
      simp only [litPre, Bool.and_eq_true, decide_eq_true_eq, List.cons_append,
        List.cons.injEq, ih]
      constructor
      · rintro ⟨rfl, r, rfl⟩; exact ⟨r, rfl, rfl⟩
      · rintro ⟨r, rfl, rfl⟩; exact ⟨rfl, r, rfl⟩

theorem starScan_iff (k : List Char → Bool) (p : Char → Bool) (s : List Char) :
    starScan k p s = true ↔
      ∃ w r, s = w ++ r ∧ (∀ c ∈ w, p c = true) ∧ k r = true := by
  induction s with
  | nil =>
    simp only [starScan]
    constructor
    · intro h; exact ⟨[], [], rfl, by simp, h⟩
    · rintro ⟨w, r, h, _, hk⟩
      obtain ⟨rfl, rfl⟩ := by simpa [List.append_eq_nil] using h.symm
      exact hk
  | cons a rest ih =>
    simp only [starScan, Bool.or_eq_true, Bool.and_eq_true, ih]
    constructor
    · rintro (h | ⟨hp, w, r, rfl, hw, hk⟩)
      · exact ⟨[], a :: rest, rfl, by simp, h⟩
      · exact ⟨a :: w, r, rfl, by simpa using ⟨hp, hw⟩, hk⟩
    · rintro ⟨w, r, h, hw, hk⟩
      cases w with
      | nil => left; simpa using h ▸ hk
      | cons b w =>
        right
        have hb : b = a ∧ w ++ r = rest := by simpa using h.symm
        obtain ⟨rfl, hwr⟩ := hb
        exact ⟨hw b (by simp), w, r, hwr.symm, fun c hc => hw c (by simp [hc]), hk⟩

theorem toksMatch_nil_iff (m : List Char) : ToksMatch [] m ↔ m = [] := by
  constructor
  · intro h; cases h; rfl
  · rintro rfl; exact ToksMatch.nil

theorem toksMatch_lit_iff (cs : List Char) (ts : List Tok) (m : List Char) :
    ToksMatch (Tok.lit cs :: ts) m ↔ ∃ s, m = cs ++ s ∧ ToksMatch ts s := by
  constructor
  · intro h
    cases h with
    | lit h' => exact ⟨_, rfl, h'⟩
  · rintro ⟨s, rfl, hs⟩; exact ToksMatch.lit hs

theorem toksMatch_one_iff (p : Char → Bool) (ts : List Tok) (m : List Char) :
    ToksMatch (Tok.one p :: ts) m ↔
      ∃ a s, m = a :: s ∧ p a = true ∧ ToksMatch ts s := by
  constructor
  · intro h
    cases h with
    | one hp h' => exact ⟨_, _, rfl, hp, h'⟩
  · rintro ⟨a, s, rfl, hp, hs⟩; exact ToksMatch.one hp hs

theorem toksMatch_opt_iff (p : Char → Bool) (ts : List Tok) (m : List Char) :
    ToksMatch (Tok.opt p :: ts) m ↔
      ToksMatch ts m ∨ ∃ a s, m = a :: s ∧ p a = true ∧ ToksMatch ts s := by
  constructor
  · intro h
    cases h with
    | opt0 h' => exact Or.inl h'
    | opt1 hp h' => exact Or.inr ⟨_, _, rfl, hp, h'⟩
  · rintro (h | ⟨a, s, rfl, hp, hs⟩)
    · exact ToksMatch.opt0 h
    · exact ToksMatch.opt1 hp hs

theorem toksMatch_plus_iff (p : Char → Bool) (ts : List Tok) (m : List Char) :
    ToksMatch (Tok.plus p :: ts) m ↔
      ∃ w s, m = w ++ s ∧ w ≠ [] ∧ (∀ c ∈ w, p c = true) ∧ ToksMatch ts s := by
  constructor
  · intro h
    cases h with
    | plus hne hw h' => exact ⟨_, _, rfl, hne, hw, h'⟩
  · rintro ⟨w, s, rfl, hne, hw, hs⟩; exact ToksMatch.plus hne hw hs

theorem toksMatch_star_iff (p : Char → Bool) (ts : List Tok) (m : List Char) :
    ToksMatch (Tok.star p :: ts) m ↔
      ∃ w s, m = w ++ s ∧ (∀ c ∈ w, p c = true) ∧ ToksMatch ts s := by
  constructor
  · intro h
    cases h with
    | star hw h' => exact ⟨_, _, rfl, hw, h'⟩
  · rintro ⟨w, s, rfl, hw, hs⟩; exact ToksMatch.star hw hs

theorem matchToks_iff (ts : List Tok) (s : List Char) :
    matchToks ts s = true ↔ ∃ m r, s = m ++ r ∧ ToksMatch ts m := by
  induction ts generalizing s with
  | nil =>
    simp only [matchToks]
    exact ⟨fun _ => ⟨[], s, rfl, ToksMatch.nil⟩, fun _ => trivial⟩
  | cons t ts ih =>
    cases t with
    | lit cs =>
      simp only [matchToks, Bool.and_eq_true, litPre_iff, ih, toksMatch_lit_iff]
      constructor
      · rintro ⟨⟨r₀, rfl⟩, m, r, hdrop, hm⟩
        rw [List.drop_left] at hdrop
        exact ⟨cs ++ m, r, by simp [hdrop], m, rfl, hm⟩
      · rintro ⟨m, r, rfl, s', rfl, hm⟩
        refine ⟨⟨s' ++ r, by simp⟩, s', r, ?_, hm⟩
        rw [List.append_assoc, List.drop_left]
    | one p =>
      cases s with
      | nil =>
        simp only [matchToks, toksMatch_one_iff]
        constructor
        · intro h; exact absurd h (by simp)
        · rintro ⟨m, r, h, a, s', rfl, hp, hm⟩
          exact absurd h.symm (by simp)
      | cons a rest =>
        simp only [matchToks, Bool.and_eq_true, ih, toksMatch_one_iff]
        constructor
        · rintro ⟨hp, m, r, rfl, hm⟩
          exact ⟨a :: m, r, rfl, a, m, rfl, hp, hm⟩
        · rintro ⟨m, r, h, b, s', rfl, hp, hm⟩
          have hb : b = a ∧ s' ++ r = rest := by simpa using h.symm
          obtain ⟨rfl, hwr⟩ := hb
          exact ⟨hp, s', r, hwr.symm, hm⟩
    | opt p =>
      cases s with
      | nil =>
        simp only [matchToks, Bool.or_eq_true, ih, toksMatch_opt_iff]
        constructor
        · rintro (⟨m, r, h, hm⟩ | h)
          · exact ⟨m, r, h, Or.inl hm⟩
          · exact absurd h (by simp)
        · rintro ⟨m, r, h, hm | ⟨a, s', rfl, hp, hm⟩⟩
          · exact Or.inl ⟨m, r, h, hm⟩
          · exact absurd h.symm (by simp)
      | cons a rest =>
        simp only [matchToks, Bool.or_eq_true, Bool.and_eq_true, ih, toksMatch_opt_iff]
        constructor
        · rintro (⟨m, r, h, hm⟩ | ⟨hp, m, r, rfl, hm⟩)
          · exact ⟨m, r, h, Or.inl hm⟩
          · exact ⟨a :: m, r, rfl, Or.inr ⟨a, m, rfl, hp, hm⟩⟩
        · rintro ⟨m, r, h, hm | ⟨b, s', rfl, hp, hm⟩⟩
          · exact Or.inl ⟨m, r, h, hm⟩
          · right
            have hb : b = a ∧ s' ++ r = rest := by simpa using h.symm
            obtain ⟨rfl, hwr⟩ := hb
            exact ⟨hp, s', r, hwr.symm, hm⟩
    | plus p =>
      cases s with
      | nil =>
        simp only [matchToks, toksMatch_plus_iff]
        constructor
        · intro h; exact absurd h (by simp)
        · rintro ⟨m, r, h, w, s', rfl, hne, hw, hm⟩
          have : w = [] := by
            have h2 := h.symm
            simp only [List.append_assoc, List.append_eq_nil] at h2
            exact h2.1
          exact absurd this hne
      | cons a rest =>
        simp only [matchToks, Bool.and_eq_true, starScan_iff, toksMatch_plus_iff]
        constructor
        · rintro ⟨hp, w, r₀, rfl, hw, hk⟩
          obtain ⟨m, r, rfl, hm⟩ := (ih _).1 hk
          refine ⟨(a :: w) ++ m, r, by simp, a :: w, m, rfl, by simp, ?_, hm⟩
          intro c hc
          rcases List.mem_cons.1 hc with rfl | hc
          · exact hp
          · exact hw c hc
        · rintro ⟨m, r, h, w, s', rfl, hne, hw, hm⟩
          cases w with
          | nil => exact absurd rfl hne
          | cons b w =>
            have hb : b = a ∧ w ++ s' ++ r = rest := by
              have := h.symm
              simpa using this
            obtain ⟨rfl, hwr⟩ := hb
            refine ⟨hw b (by simp), w, s' ++ r, by simp [← hwr], fun c hc => hw c (by simp [hc]), ?_⟩
            exact (ih _).2 ⟨s', r, rfl, hm⟩
    | star p =>
      simp only [matchToks, starScan_iff, toksMatch_star_iff]
      constructor
      · rintro ⟨w, r₀, rfl, hw, hk⟩
        obtain ⟨m, r, rfl, hm⟩ := (ih _).1 hk
        exact ⟨w ++ m, r, by simp, w, m, rfl, hw, hm⟩
      · rintro ⟨m, r, rfl, w, s', rfl, hw, hm⟩
        exact ⟨w, s' ++ r, by simp, hw, (ih _).2 ⟨s', r, rfl, hm⟩⟩

theorem findToks_iff (ts : List Tok) (s : List Char) :
    findToks ts s = true ↔ ∃ a m r, s = a ++ m ++ r ∧ ToksMatch ts m := by
  induction s with
  | nil =>
    simp only [findToks, matchToks_iff]
    constructor
    · rintro ⟨m, r, h, hm⟩; exact ⟨[], m, r, by simpa using h, hm⟩
    · rintro ⟨a, m, r, h, hm⟩
      have h2 := h.symm
      simp only [List.append_assoc, List.append_eq_nil] at h2
      obtain ⟨rfl, rfl, rfl⟩ := h2
      exact ⟨[], [], rfl, hm⟩
  | cons c rest ih =>
    simp only [findToks, Bool.or_eq_true, matchToks_iff, ih]
    constructor
    · rintro (⟨m, r, h, hm⟩ | ⟨a, m, r, h, hm⟩)
      · exact ⟨[], m, r, by simpa using h, hm⟩
      · exact ⟨c :: a, m, r, by simp [h], hm⟩
    · rintro ⟨a, m, r, h, hm⟩
      cases a with
      | nil => left; exact ⟨m, r, by simpa using h, hm⟩
      | cons b a =>
        right
        have hb : b = c ∧ a ++ m ++ r = rest := by
          simpa using h.symm
        obtain ⟨rfl, hwr⟩ := hb
        exact ⟨a, m, r, hwr.symm, hm⟩

theorem containsL_iff (pat s : List Char) :
    containsL pat s = true ↔ ∃ a b, s = a ++ pat ++ b := by
  simp only [containsL, findToks_iff]
  constructor
  · rintro ⟨a, m, r, rfl, hm⟩
    rw [toksMatch_lit_iff] at hm
    obtain ⟨s', rfl, hs'⟩ := hm
    rw [toksMatch_nil_iff] at hs'
    subst hs'
    exact ⟨a, r, by simp⟩
  · rintro ⟨a, b, rfl⟩
    exact ⟨a, pat, b, by simp, by simpa using ToksMatch.lit (s := []) ToksMatch.nil⟩

/-! ## Claim theorems -/

/-- C9: on the empty snapshot every detector (all thirteen defined by the
app, including the never-invoked cloud-services one) returns an empty issue
table, and the orchestrator metrics are zero; the embedded detectors are
total functions, so no error is raised. -/
theorem C9_empty_snapshot_all_detectors_empty :
    analyze_select_star [] = [] ∧ analyze_cartesian_joins [] = [] ∧
    analyze_union_vs_union_all [] = [] ∧ analyze_function_on_filter [] = [] ∧
    analyze_spilling [] = [] ∧ analyze_poor_pruning [] = [] ∧
    analyze_warehouse_sizing [] = [] ∧ analyze_long_compilation [] = [] ∧
    analyze_cache_efficiency [] = [] ∧ analyze_repeated_expensive_queries [] = [] ∧
    analyze_query_retries [] = [] ∧ analyze_full_table_scans [] = [] ∧
    analyze_cloud_services [] = [] ∧ all_issues_count [] = 0 ∧ critical_metric [] = 0 := by
  decide

/-- C8: every ratio the detectors compute has a guarded denominator — the
compilation-percentage and rows-per-bytes denominators are clamped to at
least 1, and the pruning scan percentage is only computed after the
partitions-total guard fires, which forces a positive denominator. -/
theorem C8_division_guards (r : Record) :
    (1 : ℚ) ≤ compilationDenominator r ∧ (1 : ℚ) ≤ explosionDenominator r ∧
    ((pruningIssue r).isSome → 0 < pruningDenominator r) := by
  refine ⟨le_max_right _ _, le_max_right _ _, ?_⟩
  intro h
  by_cases hpt : (50 : ℚ) < r.partitions_total.getD 0
  · unfold pruningDenominator
    linarith
  · exfalso
    simp [pruningIssue, pruningDenominator, hpt] at h

/-- Witness for C8 at a record the pruning detector fires on. -/
theorem C8_division_guards_witness :
    (pruningIssue rPrune).isSome ∧ (0 : ℚ) < pruningDenominator rPrune := by
  have h : (pruningIssue rPrune).isSome := by
    norm_num [pruningIssue, rPrune, baseRec, pruningDenominator]
  exact ⟨h, (C8_division_guards rPrune).2.2 h⟩

/-- C5: the spilling detector fires iff local or remote spill bytes
(missing values as 0) are positive; the severity is CRITICAL exactly when
remote spill is positive and HIGH exactly for local-only spill; the
detector table is the row-wise map of this rule over the snapshot. -/
theorem C5_spilling_rule (r : Record) :
    ((spillingIssue r).isSome ↔
      r.bytes_spilled_local.getD 0 > 0 ∨ r.bytes_spilled_remote.getD 0 > 0) ∧
    (∀ i, spillingIssue r = some i →
      ((i.severity = Severity.CRITICAL ↔ r.bytes_spilled_remote.getD 0 > 0) ∧
       (i.severity = Severity.HIGH ↔
         r.bytes_spilled_remote.getD 0 ≤ 0 ∧ r.bytes_spilled_local.getD 0 > 0))) ∧
    (∀ df : List Record, analyze_spilling df = df.filterMap spillingIssue) := by
  refine ⟨?_, ?_, fun _ => rfl⟩
  · by_cases hfire : r.bytes_spilled_local.getD 0 > 0 ∨ r.bytes_spilled_remote.getD 0 > 0 <;>
      simp [spillingIssue, hfire]
  · intro i hi
    by_cases hfire : r.bytes_spilled_local.getD 0 > 0 ∨ r.bytes_spilled_remote.getD 0 > 0
    · simp only [spillingIssue, if_pos hfire, Option.some.injEq] at hi
      subst hi
      by_cases hrem : r.bytes_spilled_remote.getD 0 > 0
      · simp [hrem]
      · have hloc : r.bytes_spilled_local.getD 0 > 0 := hfire.resolve_right hrem
        simp [hrem, hloc, not_lt.mp hrem]
    · simp [spillingIssue, if_neg hfire] at hi

/-- Witness for C5: Scenario D (5 GiB remote spill, no local spill) gives a
CRITICAL spilling issue. -/
theorem C5_spilling_rule_witness :
    spillingIssue rSpillRemote = some iSpillD ∧ iSpillD.severity = Severity.CRITICAL :=
  ⟨by decide,
   ((C5_spilling_rule rSpillRemote).2.1 iSpillD (by decide)).1.mpr (by decide)⟩

/-- C2 (amended): the reported total equals the sum of the table sizes of
nine of the twelve invoked detectors; adding back the compilation,
cache-efficiency and retry counts that the code leaves out recovers the sum
over every invoked detector (the cloud-services detector defined by the app
is never invoked at all). -/
theorem C2_total_count_amended (df : List Record) :
    all_issues_count df +
      ((analyze_long_compilation df).length + (analyze_cache_efficiency df).length +
        (analyze_query_retries df).length) = totalAllDetectors df := by
  simp only [all_issues_count, totalAllDetectors, invokedIssueTables, List.map_cons,
    List.map_nil, List.sum_cons, List.sum_nil]
  ring

/-- C2 counterexample: a snapshot whose only finding is an excessive
compilation time has a reported total of 0, while the sum of every invoked
detector table has size 1, refuting the claimed equality. -/
theorem C2_total_count_counterexample :
    all_issues_count dfC2 = 0 ∧ totalAllDetectors dfC2 = 1 ∧
    ¬ all_issues_count dfC2 = totalAllDetectors dfC2 := by
  have h0 : all_issues_count dfC2 = 0 := by
    norm_num +decide [all_issues_count, dfC2, rCompile, baseRec, analyze_select_star,
      analyze_cartesian_joins, analyze_union_vs_union_all, analyze_function_on_filter,
      analyze_spilling, analyze_poor_pruning, analyze_warehouse_sizing,
      analyze_repeated_expensive_queries, analyze_full_table_scans,
      List.filterMap, selectStarIssue, cartesianIssue, unionIssue, functionFilterIssue,
      spillingIssue, pruningIssue, fullScanIssue, whKeys, warehouseGroupIssues, whGroup,
      fingerprints, fpGroup, repeatedIssueForGroup, pruningDenominator,
      cart_missing_join_condition, cart_has_join, cart_has_on_or_using,
      cart_has_comma_join, cart_has_cross_join, cart_has_or_in_join,
      cart_high_row_explosion, explosionDenominator, oversizedSizes]
  have h1 : totalAllDetectors dfC2 = 1 := by
    norm_num +decide [totalAllDetectors, invokedIssueTables, dfC2, rCompile, baseRec,
      analyze_select_star, analyze_cartesian_joins, analyze_union_vs_union_all,
      analyze_function_on_filter, analyze_spilling, analyze_poor_pruning,
      analyze_warehouse_sizing, analyze_long_compilation, analyze_cache_efficiency,
      analyze_repeated_expensive_queries, analyze_query_retries, analyze_full_table_scans,
      List.filterMap, selectStarIssue, cartesianIssue, unionIssue, functionFilterIssue,
      spillingIssue, pruningIssue, compilationIssue, cacheIssue, retryIssue, fullScanIssue,
      whKeys, warehouseGroupIssues, whGroup, fingerprints, fpGroup, repeatedIssueForGroup,
      pruningDenominator, compilationDenominator, cart_missing_join_condition,
      cart_has_join, cart_has_on_or_using, cart_has_comma_join, cart_has_cross_join,
      cart_has_or_in_join, cart_high_row_explosion, explosionDenominator, oversizedSizes]
  exact ⟨h0, h1, by omega⟩

/-- The first wildcard regex agrees with its decomposition reading. -/
theorem findToks_selectStarFrom_iff (u : List Char) :
    findToks selectStarFromToks u = true ↔ wildcardStarFromSpec u := by
  rw [findToks_iff, wildcardStarFromSpec]
  constructor
  · rintro ⟨a, m, r, rfl, hm⟩
    rw [selectStarFromToks, toksMatch_lit_iff] at hm
    obtain ⟨s1, rfl, hm⟩ := hm
    rw [toksMatch_plus_iff] at hm
    obtain ⟨w1, s2, rfl, hw1ne, hw1, hm⟩ := hm
    rw [toksMatch_lit_iff] at hm
    obtain ⟨s3, rfl, hm⟩ := hm
    rw [toksMatch_plus_iff] at hm
    obtain ⟨w2, s4, rfl, hw2ne, hw2, hm⟩ := hm
    rw [toksMatch_lit_iff] at hm
    obtain ⟨s5, rfl, hm⟩ := hm
    rw [toksMatch_nil_iff] at hm
    subst hm
    exact ⟨a, w1, w2, r, by simp, hw1ne, hw1, hw2ne, hw2⟩
  · rintro ⟨a, w1, w2, b, rfl, hw1ne, hw1, hw2ne, hw2⟩
    refine ⟨a, "SELECT".data ++ (w1 ++ ("*".data ++ (w2 ++ ("FROM".data ++ [])))), b,
      by simp, ?_⟩
    rw [selectStarFromToks]
    exact ToksMatch.lit (ToksMatch.plus hw1ne hw1
      (ToksMatch.lit (ToksMatch.plus hw2ne hw2 (ToksMatch.lit ToksMatch.nil))))

/-- The second wildcard regex agrees with its decomposition reading. -/
theorem findToks_selectDotStar_iff (u : List Char) :
    findToks selectDotStarToks u = true ↔ wildcardDotStarSpec u := by
  rw [findToks_iff, wildcardDotStarSpec]
  constructor
  · rintro ⟨a, m, r, rfl, hm⟩
    rw [selectDotStarToks, toksMatch_lit_iff] at hm
    obtain ⟨s1, rfl, hm⟩ := hm
    rw [toksMatch_plus_iff] at hm
    obtain ⟨w, s2, rfl, hwne, hw, hm⟩ := hm
    rw [toksMatch_plus_iff] at hm
    obtain ⟨i, s3, rfl, hine, hi, hm⟩ := hm
    rw [toksMatch_lit_iff] at hm
    obtain ⟨s4, rfl, hm⟩ := hm
    rw [toksMatch_nil_iff] at hm
    subst hm
    exact ⟨a, w, i, r, by simp, hwne, hw, hine, hi⟩
  · rintro ⟨a, w, i, b, rfl, hwne, hw, hine, hi⟩
    refine ⟨a, "SELECT".data ++ (w ++ (i ++ (".*".data ++ []))), b, by simp, ?_⟩
    rw [selectDotStarToks]
    exact ToksMatch.lit (ToksMatch.plus hwne hw
      (ToksMatch.plus hine hi (ToksMatch.lit ToksMatch.nil)))

/-- C3: the wildcard-projection detector fires exactly when the query text
contains one of the two wildcard patterns, case-insensitively; the issue is
HIGH exactly when bytes scanned (missing read as 0) exceed 2 to the 30th,
and MEDIUM otherwise. -/
theorem C3_wildcard_rule (r : Record) :
    ((selectStarIssue r).isSome ↔ wildcardSpec r.query_text) ∧
    (∀ i, selectStarIssue r = some i →
      ((i.severity = Severity.HIGH ↔ r.bytes_scanned.getD 0 > 2 ^ 30) ∧
       (i.severity = Severity.MEDIUM ↔ ¬ r.bytes_scanned.getD 0 > 2 ^ 30))) := by
  have h230 : (1073741824 : ℚ) = 2 ^ 30 := by norm_num
  have hfireiff : (findToks selectStarFromToks (upper r.query_text) ||
      findToks selectDotStarToks (upper r.query_text)) = true ↔ wildcardSpec r.query_text := by
    rw [Bool.or_eq_true, wildcardSpec, findToks_selectStarFrom_iff, findToks_selectDotStar_iff]
  constructor
  · rw [← hfireiff]
    by_cases hfire : (findToks selectStarFromToks (upper r.query_text) ||
        findToks selectDotStarToks (upper r.query_text)) = true <;>
      simp [selectStarIssue, hfire]
  · intro i hi
    by_cases hfire : (findToks selectStarFromToks (upper r.query_text) ||
        findToks selectDotStarToks (upper r.query_text)) = true
    · simp only [selectStarIssue, hfire, if_pos, Option.some.injEq] at hi
      subst hi
      by_cases hb : r.bytes_scanned.getD 0 > 1073741824
      · rw [h230] at hb
        simp [hb, h230]
      · rw [h230] at hb
        simp [hb, h230]
    · simp [selectStarIssue, hfire] at hi

/-- Witness for C3: Scenario A, a SELECT-star query scanning 2 GiB, fires
with severity HIGH. -/
theorem C3_wildcard_rule_witness :
    wildcardSpec rScenarioA.query_text ∧ iStarA.severity = Severity.HIGH := by
  refine ⟨(C3_wildcard_rule rScenarioA).1.mp (by decide), ?_⟩
  have hb : rScenarioA.bytes_scanned.getD 0 > 2 ^ 30 := by
    norm_num [rScenarioA, baseRec]
  exact ((C3_wildcard_rule rScenarioA).2 iStarA (by decide)).1.mpr hb

/-- A substring is absent exactly when no decomposition exhibits it. -/
theorem containsL_eq_false_iff (pat s : List Char) :
    containsL pat s = false ↔ ¬ ∃ a b, s = a ++ pat ++ b := by
  rw [← containsL_iff]
  cases h : containsL pat s <;> simp

/-- C4 (amended): the missing-join-predicate flag fires exactly when the
uppercased text contains JOIN and contains neither a spaced ON nor the
USING substring anywhere (plain substring containment, regardless of
position relative to JOIN), or matches the comma-FROM pattern with no WHERE
substring; whenever the flag fires the detector emits a join issue with
severity CRITICAL; and the Scenario B record fires both the
wildcard-projection issue and the CRITICAL join issue. -/
theorem C4_missing_join_amended :
    (∀ r : Record,
      (cart_missing_join_condition (upper r.query_text) = true ↔
        missingJoinAmendedSpec r.query_text) ∧
      (cart_missing_join_condition (upper r.query_text) = true →
        ∃ i, cartesianIssue r = some i ∧ i.severity = Severity.CRITICAL)) ∧
    ((selectStarIssue rScenarioB).isSome ∧
      ∃ i, cartesianIssue rScenarioB = some i ∧ i.severity = Severity.CRITICAL) := by
  refine ⟨fun r => ⟨?_, ?_⟩, by decide, ?_⟩
  · rw [cart_missing_join_condition, missingJoinAmendedSpec]
    simp only [cart_has_join, cart_has_on_or_using, cart_has_comma_join,
      Bool.or_eq_true, Bool.and_eq_true, Bool.not_eq_true',
      Bool.or_eq_false_iff, containsL_iff, containsL_eq_false_iff, findToks_iff]
  · intro hm
    refine ⟨{ query_id := r.query_id, warehouse := r.warehouse_name,
              warehouse_size := r.warehouse_size, severity := Severity.CRITICAL,
              issue := "Cartesian Join / Join Issue" }, ?_, rfl⟩
    simp [cartesianIssue, hm]
  · refine ⟨{ query_id := "Q", warehouse := "W", warehouse_size := "X-SMALL",
              severity := Severity.CRITICAL,
              issue := "Cartesian Join / Join Issue" }, by decide, rfl⟩

/-- Witness for the amended C4 at a query with JOIN and no join predicate. -/
theorem C4_missing_join_amended_witness :
    missingJoinAmendedSpec rJoinNoOn.query_text ∧
    ∃ i, cartesianIssue rJoinNoOn = some i ∧ i.severity = Severity.CRITICAL := by
  have hm : cart_missing_join_condition (upper rJoinNoOn.query_text) = true := by decide
  exact ⟨(C4_missing_join_amended.1 rJoinNoOn).1.mp hm,
    (C4_missing_join_amended.1 rJoinNoOn).2 hm⟩

/-- C4 counterexample: for the text SELECT A FROM X JOIN Y DIFFUSING Z the
claimed condition holds (JOIN occurs with no subsequent ON or USING token —
the USING letters occur only inside the word DIFFUSING), yet the code
neither raises the missing-join flag nor emits any join issue, because it
tests USING by plain substring containment anywhere in the text. -/
theorem C4_missing_join_counterexample :
    claimMissingJoin rDiffusing.query_text = true ∧
    cart_missing_join_condition (upper rDiffusing.query_text) = false ∧
    cartesianIssue rDiffusing = none := by
  exact ⟨by decide, by decide, by decide⟩

/-- C6: a fingerprint group yields an issue exactly when it has at least 5
executions and more than 60 summed seconds; the issue is HIGH exactly above
300 summed seconds and MEDIUM otherwise; and the detector emits exactly one
issue per qualifying group (its table length equals the number of
qualifying fingerprint keys). -/
theorem C6_repeated_expensive_rule (df : List Record) (h : String) :
    ((repeatedIssueForGroup (fpGroup df h)).isSome ↔
      (fpGroup df h).length ≥ 5 ∧
        ((fpGroup df h).map fun r => r.execution_time_sec).sum > 60) ∧
    (∀ i, repeatedIssueForGroup (fpGroup df h) = some i →
      ((i.severity = Severity.HIGH ↔
          ((fpGroup df h).map fun r => r.execution_time_sec).sum > 300) ∧
       (i.severity = Severity.MEDIUM ↔
          ¬ ((fpGroup df h).map fun r => r.execution_time_sec).sum > 300))) ∧
    (analyze_repeated_expensive_queries df).length =
      ((fingerprints df).filter fun h' =>
        decide ((fpGroup df h').length ≥ 5 ∧
          ((fpGroup df h').map fun r => r.execution_time_sec).sum > 60)).length := by
  refine ⟨?_, ?_, ?_⟩
  · by_cases hc : (fpGroup df h).length ≥ 5 ∧
        ((fpGroup df h).map fun r => r.execution_time_sec).sum > 60 <;>
      simp [repeatedIssueForGroup, hc]
  · intro i hi
    by_cases hc : (fpGroup df h).length ≥ 5 ∧
        ((fpGroup df h).map fun r => r.execution_time_sec).sum > 60
    · simp only [repeatedIssueForGroup, if_pos hc, Option.some.injEq] at hi
      subst hi
      by_cases h300 : ((fpGroup df h).map fun r => r.execution_time_sec).sum > 300 <;>
        simp [h300]
    · simp [repeatedIssueForGroup, if_neg hc] at hi
  · rw [analyze_repeated_expensive_queries, List.length_filterMap_eq_countP,
      List.countP_eq_length_filter]
    congr 1
    apply List.filter_congr
    intro h' _
    by_cases hc : (fpGroup df h').length ≥ 5 ∧
        ((fpGroup df h').map fun r => r.execution_time_sec).sum > 60 <;>
      simp [repeatedIssueForGroup, hc]

/-- Witness for C6: five executions of one fingerprint totalling 100
seconds give exactly one MEDIUM issue. -/
theorem C6_repeated_expensive_rule_witness :
    (repeatedIssueForGroup (fpGroup dfC6 "H")).isSome ∧
    (analyze_repeated_expensive_queries dfC6).length =
      ((fingerprints dfC6).filter fun h' =>
        decide ((fpGroup dfC6 h').length ≥ 5 ∧
          ((fpGroup dfC6 h').map fun r => r.execution_time_sec).sum > 60)).length := by
  have hlen : (fpGroup dfC6 "H").length = 5 := by decide
  have hsum : ((fpGroup dfC6 "H").map fun r => r.execution_time_sec).sum = 100 := by
    norm_num [dfC6, fpGroup, mkFpRec, baseRec, List.filter]
  exact ⟨(C6_repeated_expensive_rule dfC6 "H").1.mpr
      ⟨by omega, by rw [hsum]; norm_num⟩,
    (C6_repeated_expensive_rule dfC6 "H").2.2⟩

/-- C10: each (warehouse, size) group contributes exactly one
Slow-Warehouse-Provisioning issue when its summed queued-provisioning time
exceeds 30000 ms (and none otherwise); that issue carries severity MEDIUM
and the group key, it appears in the warehouse-sizing table, and that table
is one of the summands of the reported total. -/
theorem C10_slow_provisioning_rule (df : List Record) (k : String × String) :
    ((warehouseGroupIssues df k).countP
        (fun i => decide (i.issue = "Slow Warehouse Provisioning")) =
      if ((whGroup df k).map fun r => r.queued_provisioning_time).sum > 30000
      then 1 else 0) ∧
    (((whGroup df k).map fun r => r.queued_provisioning_time).sum > 30000 →
      ∃ i ∈ analyze_warehouse_sizing df,
        i.warehouse = k.1 ∧ i.warehouse_size = k.2 ∧
        i.issue = "Slow Warehouse Provisioning" ∧ i.severity = Severity.MEDIUM) ∧
    (analyze_warehouse_sizing df).length ≤ all_issues_count df := by
  refine ⟨?_, ?_, ?_⟩
  · by_cases h3 : ((whGroup df k).map fun r => r.queued_provisioning_time).sum > 30000 <;>
      by_cases h1 : ((whGroup df k).map fun r => r.execution_time_sec).sum /
          ((whGroup df k).length : ℚ) < 3 ∧ k.2 ∈ oversizedSizes <;>
      by_cases h2 : ((whGroup df k).map fun r => r.queued_overload_time).sum > 60000 <;>
      simp [warehouseGroupIssues, h1, h2, h3]
  · intro hp
    have hne : whGroup df k ≠ [] := by
      intro hnil
      rw [hnil] at hp
      norm_num at hp
    obtain ⟨r, hr⟩ := List.exists_mem_of_ne_nil _ hne
    have hrdf : r ∈ df ∧ (r.warehouse_name, r.warehouse_size) = k := by
      have := List.mem_filter.mp hr
      exact ⟨this.1, by simpa using this.2⟩
    have hk : k ∈ whKeys df :=
      List.mem_dedup.mpr (List.mem_map.mpr ⟨r, hrdf.1, hrdf.2⟩)
    refine ⟨{ query_id := "", warehouse := k.1, warehouse_size := k.2,
              severity := Severity.MEDIUM, issue := "Slow Warehouse Provisioning" },
            ?_, rfl, rfl, rfl, rfl⟩
    rw [analyze_warehouse_sizing]
    apply List.mem_flatMap.mpr
    refine ⟨k, hk, ?_⟩
    rw [warehouseGroupIssues]
    apply List.mem_append.mpr
    right
    simp [hp]
  · rw [all_issues_count]
    omega

/-- Witness for C10: one record whose warehouse waited 40 seconds for
provisioning yields the Slow-Warehouse-Provisioning issue in the table. -/
theorem C10_slow_provisioning_rule_witness :
    ∃ i ∈ analyze_warehouse_sizing [rProv],
      i.warehouse = "W" ∧ i.warehouse_size = "X-SMALL" ∧
      i.issue = "Slow Warehouse Provisioning" ∧ i.severity = Severity.MEDIUM := by
  have hp : ((whGroup [rProv] ("W", "X-SMALL")).map
      fun r => r.queued_provisioning_time).sum > 30000 := by
    norm_num [whGroup, rProv, baseRec, List.filter]
  exact (C10_slow_provisioning_rule [rProv] ("W", "X-SMALL")).2.1 hp

/-! ## Severity inventories, used to settle the critical-count claim -/

theorem selectStarIssue_not_critical (r : Record) (i : Issue)
    (h : selectStarIssue r = some i) : i.severity ≠ Severity.CRITICAL := by
  rw [selectStarIssue] at h
  split at h
  · injection h with h2
    subst h2
    dsimp only
    split <;> simp
  · exact absurd h (by simp)

theorem unionIssue_not_critical (r : Record) (i : Issue)
    (h : unionIssue r = some i) : i.severity ≠ Severity.CRITICAL := by
  rw [unionIssue] at h
  split at h
  · injection h with h2
    subst h2
    simp
  · exact absurd h (by simp)

theorem functionFilterIssue_not_critical (r : Record) (i : Issue)
    (h : functionFilterIssue r = some i) : i.severity ≠ Severity.CRITICAL := by
  rw [functionFilterIssue] at h
  split at h
  · split at h
    · injection h with h2
      subst h2
      dsimp only
      split <;> simp
    · exact absurd h (by simp)
  · exact absurd h (by simp)

theorem pruningIssue_not_critical (r : Record) (i : Issue)
    (h : pruningIssue r = some i) : i.severity ≠ Severity.CRITICAL := by
  rw [pruningIssue] at h
  dsimp only at h
  split at h
  · split at h
    · injection h with h2
      subst h2
      dsimp only
      split <;> simp
    · exact absurd h (by simp)
  · exact absurd h (by simp)

theorem compilationIssue_not_critical (r : Record) (i : Issue)
    (h : compilationIssue r = some i) : i.severity ≠ Severity.CRITICAL := by
  rw [compilationIssue] at h
  split at h
  · injection h with h2
    subst h2
    simp
  · exact absurd h (by simp)

theorem cacheIssue_not_critical (r : Record) (i : Issue)
    (h : cacheIssue r = some i) : i.severity ≠ Severity.CRITICAL := by
  rw [cacheIssue] at h
  split at h
  · injection h with h2
    subst h2
    simp
  · exact absurd h (by simp)

theorem retryIssue_not_critical (r : Record) (i : Issue)
    (h : retryIssue r = some i) : i.severity ≠ Severity.CRITICAL := by
  rw [retryIssue] at h
  split at h
  · split at h
    · injection h with h2
      subst h2
      simp
    · exact absurd h (by simp)
  · exact absurd h (by simp)

theorem fullScanIssue_not_critical (r : Record) (i : Issue)
    (h : fullScanIssue r = some i) : i.severity ≠ Severity.CRITICAL := by
  rw [fullScanIssue] at h
  split at h
  · injection h with h2
    subst h2
    simp
  · exact absurd h (by simp)

theorem repeatedIssueForGroup_not_critical (g : List Record) (i : Issue)
    (h : repeatedIssueForGroup g = some i) : i.severity ≠ Severity.CRITICAL := by
  rw [repeatedIssueForGroup] at h
  split at h
  · injection h with h2
    subst h2
    dsimp only
    split <;> simp
  · exact absurd h (by simp)

theorem warehouseGroupIssues_not_critical (df : List Record) (k : String × String)
    (i : Issue) (hi : i ∈ warehouseGroupIssues df k) :
    i.severity ≠ Severity.CRITICAL := by
  rw [warehouseGroupIssues] at hi
  rcases List.mem_append.mp hi with h12 | h3
  · rcases List.mem_append.mp h12 with h1 | h2
    · split at h1
      · simp at h1
        subst h1
        simp
      · exact absurd h1 (by simp)
    · split at h2
      · simp at h2
        subst h2
        simp
      · exact absurd h2 (by simp)
  · split at h3
    · simp at h3
      subst h3
      simp
    · exact absurd h3 (by simp)

/-- Every join issue is CRITICAL or HIGH. -/
theorem cartesianIssue_severity (r : Record) (i : Issue)
    (h : cartesianIssue r = some i) :
    i.severity = Severity.CRITICAL ∨ i.severity = Severity.HIGH := by
  rw [cartesianIssue] at h
  split at h
  · injection h with h2
    subst h2
    dsimp only
    split
    · exact Or.inl rfl
    · exact Or.inr rfl
  · exact absurd h (by simp)

/-- A table built from a per-element rule that never grades CRITICAL has no
CRITICAL rows. -/
theorem critFilter_eq_nil_of {α : Type} (f : α → Option Issue)
    (hf : ∀ a i, f a = some i → i.severity ≠ Severity.CRITICAL) (l : List α) :
    ((l.filterMap f).filter fun i => decide (i.severity = Severity.CRITICAL)) = [] := by
  rw [List.filter_eq_nil_iff]
  intro i hi
  obtain ⟨a, _, hfa⟩ := List.mem_filterMap.mp hi
  simpa using hf a i hfa

/-- The join table splits into its CRITICAL and HIGH rows. -/
theorem cart_len_split (df : List Record) :
    (analyze_cartesian_joins df).length =
      ((analyze_cartesian_joins df).filter
          fun i => decide (i.severity = Severity.CRITICAL)).length +
      ((analyze_cartesian_joins df).filter
          fun i => decide (i.severity = Severity.HIGH)).length := by
  rw [← List.countP_eq_length_filter, ← List.countP_eq_length_filter,
    List.length_eq_countP_add_countP (p := fun i => decide (i.severity = Severity.CRITICAL))]
  congr 1
  apply List.countP_congr
  intro i hi
  rw [analyze_cartesian_joins] at hi
  obtain ⟨r, _, hr⟩ := List.mem_filterMap.mp hi
  rcases cartesianIssue_severity r i hr with hc | hh
  · simp [hc]
  · simp [hh]

/-- Only the join and spilling detectors produce CRITICAL issues, so the
claim-side global CRITICAL count reduces to those two tables. -/
theorem criticalCountAll_eq (df : List Record) :
    criticalCountAll df =
      ((analyze_cartesian_joins df).filter
          fun i => decide (i.severity = Severity.CRITICAL)).length +
      criticalSpillCount df := by
  have h1 : ((analyze_select_star df).filter
      fun i => decide (i.severity = Severity.CRITICAL)) = [] := by
    rw [analyze_select_star]
    exact critFilter_eq_nil_of _ selectStarIssue_not_critical df
  have h3 : ((analyze_union_vs_union_all df).filter
      fun i => decide (i.severity = Severity.CRITICAL)) = [] := by
    rw [analyze_union_vs_union_all]
    exact critFilter_eq_nil_of _ unionIssue_not_critical df
  have h4 : ((analyze_function_on_filter df).filter
      fun i => decide (i.severity = Severity.CRITICAL)) = [] := by
    rw [analyze_function_on_filter]
    exact critFilter_eq_nil_of _ functionFilterIssue_not_critical df
  have h6 : ((analyze_poor_pruning df).filter
      fun i => decide (i.severity = Severity.CRITICAL)) = [] := by
    rw [analyze_poor_pruning]
    exact critFilter_eq_nil_of _ pruningIssue_not_critical df
  have h7 : ((analyze_warehouse_sizing df).filter
      fun i => decide (i.severity = Severity.CRITICAL)) = [] := by
    rw [List.filter_eq_nil_iff]
    intro i hi
    rw [analyze_warehouse_sizing] at hi
    obtain ⟨k, _, hik⟩ := List.mem_flatMap.mp hi
    simpa using warehouseGroupIssues_not_critical df k i hik
  have h8 : ((analyze_long_compilation df).filter
      fun i => decide (i.severity = Severity.CRITICAL)) = [] := by
    rw [analyze_long_compilation]
    exact critFilter_eq_nil_of _ compilationIssue_not_critical df
  have h9 : ((analyze_cache_efficiency df).filter
      fun i => decide (i.severity = Severity.CRITICAL)) = [] := by
    rw [analyze_cache_efficiency]
    exact critFilter_eq_nil_of _ cacheIssue_not_critical df
  have h10 : ((analyze_repeated_expensive_queries df).filter
      fun i => decide (i.severity = Severity.CRITICAL)) = [] := by
    rw [analyze_repeated_expensive_queries]
    exact critFilter_eq_nil_of _
      (fun h' i hi => repeatedIssueForGroup_not_critical (fpGroup df h') i hi)
      (fingerprints df)
  have h11 : ((analyze_query_retries df).filter
      fun i => decide (i.severity = Severity.CRITICAL)) = [] := by
    rw [analyze_query_retries]
    exact critFilter_eq_nil_of _ retryIssue_not_critical df
  have h12 : ((analyze_full_table_scans df).filter
      fun i => decide (i.severity = Severity.CRITICAL)) = [] := by
    rw [analyze_full_table_scans]
    exact critFilter_eq_nil_of _ fullScanIssue_not_critical df
  rw [criticalCountAll, invokedIssueTables]
  simp only [List.map_cons, List.map_nil, List.sum_cons, List.sum_nil,
    h1, h3, h4, h6, h7, h8, h9, h10, h11, h12, List.length_nil]
  rw [criticalSpillCount]
  omega

/-- C1 (amended): the reported critical metric is 0 whenever the spilling
table is empty (the Python conditional covers the whole sum), and otherwise
equals the number of CRITICAL issues across all invoked detectors plus the
number of HIGH-severity join issues (the code adds the entire join table,
not only its CRITICAL rows). -/
theorem C1_critical_metric_amended (df : List Record) :
    (analyze_spilling df = [] → critical_metric df = 0) ∧
    (analyze_spilling df ≠ [] →
      critical_metric df = criticalCountAll df + highCartCount df) := by
  constructor
  · intro h
    rw [critical_metric, if_neg (fun hne => hne h)]
  · intro h
    rw [critical_metric, if_pos h, criticalCountAll_eq, highCartCount, cart_len_split df]
    omega

/-- Witness for the amended C1 on a snapshot with one HIGH join issue and
one HIGH local-spill issue. -/
theorem C1_critical_metric_amended_witness :
    analyze_spilling dfC1 ≠ [] ∧
    critical_metric dfC1 = criticalCountAll dfC1 + highCartCount dfC1 := by
  have h : analyze_spilling dfC1 ≠ [] := by decide
  exact ⟨h, (C1_critical_metric_amended dfC1).2 h⟩

/-- C1 counterexample: on `dfC1` the code reports 1 critical issue while no
detector emitted any CRITICAL issue, refuting the claimed equality between
the reported metric and the CRITICAL count across all detectors. -/
theorem C1_critical_metric_counterexample :
    critical_metric dfC1 = 1 ∧ criticalCountAll dfC1 = 0 ∧
    ¬ critical_metric dfC1 = criticalCountAll dfC1 := by
  have h1 : critical_metric dfC1 = 1 := by decide
  have h0 : criticalCountAll dfC1 = 0 := by
    norm_num +decide [criticalCountAll, invokedIssueTables, dfC1, rOrJoin, rSpillLocal,
      baseRec, analyze_select_star, analyze_cartesian_joins, analyze_union_vs_union_all,
      analyze_function_on_filter, analyze_spilling, analyze_poor_pruning,
      analyze_warehouse_sizing, analyze_long_compilation, analyze_cache_efficiency,
      analyze_repeated_expensive_queries, analyze_query_retries, analyze_full_table_scans,
      List.filterMap, selectStarIssue, cartesianIssue, unionIssue, functionFilterIssue,
      spillingIssue, pruningIssue, compilationIssue, cacheIssue, retryIssue, fullScanIssue,
      whKeys, warehouseGroupIssues, whGroup, fingerprints, fpGroup, repeatedIssueForGroup,
      pruningDenominator, compilationDenominator, cart_missing_join_condition,
      cart_has_join, cart_has_on_or_using, cart_has_comma_join, cart_has_cross_join,
      cart_has_or_in_join, cart_high_row_explosion, explosionDenominator, oversizedSizes,
      List.filter]
  exact ⟨h1, h0, by omega⟩

/-! ## The runtime-spike claim (anomaly detector modelled from the spec) -/

/-- Sample variance is nonnegative. -/
theorem varianceQ_nonneg (xs : List ℚ) : 0 ≤ varianceQ xs := by
  cases xs with
  | nil => simp [varianceQ]
  | cons a l =>
    apply div_nonneg
    · apply List.sum_nonneg
      intro x hx
      obtain ⟨y, _, rfl⟩ := List.mem_map.mp hx
      positivity
    · have h1 : (1 : ℚ) ≤ ((a :: l).length : ℚ) := by
        have : 1 ≤ (a :: l).length := by simp
        exact_mod_cast this
      linarith

/-- For a nonnegative rational, the real square root vanishes exactly on
zero. -/
theorem sqrt_cast_ne_zero_iff (v : ℚ) (hv : 0 ≤ v) :
    Real.sqrt (v : ℝ) ≠ 0 ↔ v ≠ 0 := by
  rw [Real.sqrt_ne_zero (by exact_mod_cast hv)]
  exact_mod_cast Iff.rfl

/-- The z-score condition of the spec, with the standard deviation as the
square root of the variance, is equivalent to its squared rational form. -/
theorem z_score_iff (x m v : ℚ) (hv : 0 ≤ v) (hvne : v ≠ 0) :
    ((x : ℝ) - (m : ℝ)) / Real.sqrt (v : ℝ) > 3 ↔
      (x - m > 0 ∧ (x - m) ^ 2 > 9 * v) := by
  have hvR : (0 : ℝ) < (v : ℝ) := by
    have : (0 : ℚ) < v := lt_of_le_of_ne hv (Ne.symm hvne)
    exact_mod_cast this
  have hσpos : 0 < Real.sqrt (v : ℝ) := Real.sqrt_pos.mpr hvR
  rw [gt_iff_lt, lt_div_iff₀ hσpos]
  constructor
  · intro h3
    have hxm : (0 : ℝ) < (x : ℝ) - m := lt_trans (by positivity) h3
    have hsq : (3 * Real.sqrt (v : ℝ)) ^ 2 < ((x : ℝ) - m) ^ 2 := by
      apply pow_lt_pow_left₀ h3 (by positivity)
      norm_num
    rw [mul_pow, Real.sq_sqrt (le_of_lt hvR)] at hsq
    have h9 : (9 : ℝ) * v < ((x : ℝ) - m) ^ 2 := by
      calc (9 : ℝ) * v = 3 ^ 2 * v := by norm_num
        _ < ((x : ℝ) - m) ^ 2 := hsq
    constructor
    · have : (0 : ℝ) < ((x - m : ℚ) : ℝ) := by push_cast; linarith
      exact_mod_cast this
    · have : ((9 * v : ℚ) : ℝ) < (((x - m) ^ 2 : ℚ) : ℝ) := by push_cast; linarith
      exact_mod_cast this
  · rintro ⟨hxm, hsq⟩
    have hxmR : (0 : ℝ) < (x : ℝ) - m := by
      have : ((0 : ℚ) : ℝ) < ((x - m : ℚ) : ℝ) := by exact_mod_cast hxm
      push_cast at this
      linarith
    have h9 : (9 : ℝ) * v < ((x : ℝ) - m) ^ 2 := by
      have : ((9 * v : ℚ) : ℝ) < (((x - m) ^ 2 : ℚ) : ℝ) := by exact_mod_cast hsq
      push_cast at this
      linarith
    have hlt : Real.sqrt (9 * (v : ℝ)) < Real.sqrt (((x : ℝ) - m) ^ 2) :=
      Real.sqrt_lt_sqrt (by positivity) h9
    rw [Real.sqrt_sq (le_of_lt hxmR)] at hlt
    have h3v : Real.sqrt (9 * (v : ℝ)) = 3 * Real.sqrt (v : ℝ) := by
      rw [show (9 : ℝ) * v = 3 ^ 2 * v by ring,
        Real.sqrt_mul (by positivity) (v : ℝ), Real.sqrt_sq (by norm_num)]
    rw [h3v] at hlt
    exact hlt

/-- C7: in a snapshot of at least 10 records, a record of a fingerprint
group of size at least 3 is flagged by the runtime-spike check exactly when
the group standard deviation (square root of the variance) is nonzero, the
z-score exceeds 3 and the execution time exceeds 3 times the group median;
groups with zero standard deviation, and groups smaller than 3, never flag. -/
theorem C7_runtime_spike_rule (df : List Record) (r : Record) (h : String)
    (hmem : r ∈ df) (hfp : r.fingerprint = some h) :
    (df.length ≥ 10 ∧ (execTimes df h).length ≥ 3 →
      (runtimeSpikeFlagged df r = true ↔
        (Real.sqrt ((varianceQ (execTimes df h) : ℚ) : ℝ) ≠ 0 ∧
         ((r.execution_time_sec : ℝ) - ((median (execTimes df h) : ℚ) : ℝ)) /
             Real.sqrt ((varianceQ (execTimes df h) : ℚ) : ℝ) > 3 ∧
         r.execution_time_sec > 3 * median (execTimes df h)))) ∧
    (Real.sqrt ((varianceQ (execTimes df h) : ℚ) : ℝ) = 0 →
      runtimeSpikeFlagged df r = false) ∧
    ((execTimes df h).length < 3 → runtimeSpikeFlagged df r = false) := by
  have hv : 0 ≤ varianceQ (execTimes df h) := varianceQ_nonneg _
  have hflag : runtimeSpikeFlagged df r = true ↔
      (df.length ≥ 10 ∧ (execTimes df h).length ≥ 3 ∧
       varianceQ (execTimes df h) ≠ 0 ∧
       r.execution_time_sec - median (execTimes df h) > 0 ∧
       (r.execution_time_sec - median (execTimes df h)) ^ 2 >
         9 * varianceQ (execTimes df h) ∧
       r.execution_time_sec > 3 * median (execTimes df h)) := by
    rw [runtimeSpikeFlagged, hfp]
    simp [hmem, and_assoc]
  refine ⟨?_, ?_, ?_⟩
  · rintro ⟨h10, h3len⟩
    rw [hflag]
    constructor
    · rintro ⟨_, _, hvne, hpos, hsq, h3m⟩
      exact ⟨(sqrt_cast_ne_zero_iff _ hv).mpr hvne,
        (z_score_iff _ _ _ hv hvne).mpr ⟨hpos, hsq⟩, h3m⟩
    · rintro ⟨hσ, hz, h3m⟩
      have hvne := (sqrt_cast_ne_zero_iff _ hv).mp hσ
      obtain ⟨hpos, hsq⟩ := (z_score_iff _ _ _ hv hvne).mp hz
      exact ⟨h10, h3len, hvne, hpos, hsq, h3m⟩
  · intro hσ0
    rw [Bool.eq_false_iff]
    intro htrue
    obtain ⟨_, _, hvne, _⟩ := hflag.mp htrue
    exact absurd hσ0 ((sqrt_cast_ne_zero_iff _ hv).mpr hvne)
  · intro hlt
    rw [Bool.eq_false_iff]
    intro htrue
    obtain ⟨_, h3len, _⟩ := hflag.mp htrue
    omega

/-- Witness for C7: in a 10-record snapshot whose fingerprint group has
five identical execution times (variance 0), the flagged record set is
empty for that group. -/
theorem C7_runtime_spike_rule_witness :
    mkFpRec "a" ∈ dfC7 ∧ runtimeSpikeFlagged dfC7 (mkFpRec "a") = false := by
  have hmem : mkFpRec "a" ∈ dfC7 := by decide
  have hfp : (mkFpRec "a").fingerprint = some "H" := rfl
  have hexec : execTimes dfC7 "H" = [20, 20, 20, 20, 20] := by decide
  have hv0 : varianceQ (execTimes dfC7 "H") = 0 := by
    rw [hexec]
    norm_num [varianceQ, meanQ]
  refine ⟨hmem, (C7_runtime_spike_rule dfC7 (mkFpRec "a") "H" hmem hfp).2.1 ?_⟩
  rw [hv0]
  simp

end SnowflakeAnalyzer
